import Mathlib

/-!
Verification development for the Playwright browser-automation scripts in
`login-automation/tests`.  Each effectful script fragment is shallowly
embedded as a pure Lean function over an explicit environment describing
which page interactions succeed; machine effects (file system, browser
context, thrown exceptions) are made explicit through sum/option types.
-/

namespace DataflowAutomation

/-- The constant maxAge of loadCookies: 24 hours in milliseconds. -/
def maxAge : Nat := 24 * 60 * 60 * 1000

/-- A browser cookie as stored by page.context().cookies(). -/
structure Cookie where
  name : String
  value : String
  domain : String
deriving DecidableEq

/-- The object serialised into cookies.json by saveCookies: exactly the
three fields email, cookies and timestamp. -/
structure CookieData where
  email : String
  cookies : List Cookie
  timestamp : Nat
deriving DecidableEq

/-- The observable state of the cookies.json file when loadCookies runs:
missing, present but not valid JSON (JSON.parse throws), or a parsed
snapshot. -/
inductive CookieFile where
  | absent
  | corrupt (raw : String)
  | valid (d : CookieData)
deriving DecidableEq

/-- saveCookies (create_vr.spec.ts lines 8-18): the snapshot written to
cookies.json from the context cookies, the email argument and Date.now(). -/
def saveCookies (contextCookies : List Cookie) (email : String) (now : Nat) : CookieData :=
  { email := email, cookies := contextCookies, timestamp := now }

/-- The try block of loadCookies (create_vr.spec.ts lines 21-35).  The
result pairs the returned email with the cookies added to the browser
context; a thrown exception is an error value.  addCookiesOk records
whether page.context().addCookies succeeds. -/
def loadCookiesTry (file : CookieFile) (now : Nat) (addCookiesOk : Bool) :
    Except String (Option String × List Cookie) :=
  match file with
  | .absent => .ok (none, [])
  | .corrupt _ => .error "JSON.parse"
  | .valid d =>
      if now - d.timestamp > maxAge then .ok (none, [])
      else if addCookiesOk then .ok (some d.email, d.cookies)
      else .error "addCookies"

/-- loadCookies (create_vr.spec.ts lines 20-40): the try block wrapped in
the catch-all handler, which logs and falls through to return null. -/
def loadCookies (file : CookieFile) (now : Nat) (addCookiesOk : Bool) :
    Option String × List Cookie :=
  match loadCookiesTry file now addCookiesOk with
  | .ok r => r
  | .error _ => (none, [])

/-- The hardcoded email of the Create Verification Request test. -/
def specificEmail : String := "ndarshan+story47@dataflowgroup.com"

/-- Which top-level path the Create Verification Request test takes. -/
inductive LoginPath where
  | reuseCookies
  | freshLogin
deriving DecidableEq

/-- The dispatch at the top of the Create Verification Request test
(create_vr.spec.ts lines 375-412): savedEmail is what loadCookies
returned, dashboardSelectorOk is whether the logged-in-dashboard selector
wait succeeds, urlHasDashboard is whether page.url() contains /dashboard
in the fallback check. -/
def createVrDispatch (savedEmail : Option String) (dashboardSelectorOk : Bool)
    (urlHasDashboard : Bool) : LoginPath :=
  match savedEmail with
  | some e =>
      if e = specificEmail then
        if dashboardSelectorOk then .reuseCookies
        else if urlHasDashboard then .reuseCookies
        else .freshLogin
      else .freshLogin
  | none => .freshLogin

end DataflowAutomation

namespace DataflowAutomation.LoginSpec

/-- generateRandomPhoneNumber (login.spec.ts lines 10-20).  The two random
draws are made explicit: r0 models Math.floor(Math.random() * 4) indexing
into the array [6, 7, 8, 9], and rs i models the draw
Math.floor(Math.random() * 10) of loop iteration i.  Each draw is
coerced to a string and concatenated, as JavaScript number + string is
string concatenation. -/
def generateRandomPhoneNumber (r0 : Fin 4) (rs : Fin 9 → Fin 10) : String :=
  let firstDigit : Nat := [6, 7, 8, 9].get r0
  let remainingDigits : String :=
    (List.ofFn rs).foldl (fun s d => s ++ toString d.val) ""
  toString firstDigit ++ remainingDigits

/-- The error message thrown by selectDropdownOption in login.spec.ts. -/
def dropdownErrorMessage (testId : String) : String :=
  "Failed to select option from " ++ testId ++ " dropdown"

/-- selectDropdownOption (login.spec.ts lines 23-61).  clickSequence is
the outcome of the opening click / menu wait / option click sequence (its
exception propagates untouched); inputValue is what
page.locator(inputSelector).inputValue() observes afterwards. -/
def selectDropdownOption (testId : String) (clickSequence : Except String Unit)
    (inputValue : String) : Except String String :=
  match clickSequence with
  | .error e => .error e
  | .ok _ =>
      if inputValue = "" ∨ inputValue = "Select " ++ testId then
        .error (dropdownErrorMessage testId)
      else .ok inputValue

/-- Which of the six terms-and-conditions checkbox methods succeed
(login.spec.ts lines 261-350): m1 is input[type=checkbox] check, m2 the
mouse click next to the Terms and Conditions text, m3 the label click,
m4 the CSS-selector click, m5 keyboard navigation, m6 the approximate
location click. -/
structure CheckboxEnv where
  m1 : Bool
  m2 : Bool
  m3 : Bool
  m4 : Bool
  m5 : Bool
  m6 : Bool
deriving DecidableEq

/-- Observable outcome of the terms-and-conditions checkbox block. -/
structure CheckboxRun where
  checkboxSelected : Bool
  screenshotTaken : Bool
  pauseInvoked : Bool
deriving DecidableEq

/-- The terms-and-conditions checkbox block (login.spec.ts lines
261-355): each method runs only while checkboxSelected is still false;
when all six fail the script takes the checkbox-selection-failed
screenshot and continues.  The block contains no page.pause() call. -/
def termsCheckboxBlock (env : CheckboxEnv) : CheckboxRun :=
  let c1 := env.m1
  let c2 := if c1 then true else env.m2
  let c3 := if c2 then true else env.m3
  let c4 := if c3 then true else env.m4
  let c5 := if c4 then true else env.m5
  let c6 := if c5 then true else env.m6
  { checkboxSelected := c6
    screenshotTaken := !c6
    pauseInvoked := false }

end DataflowAutomation.LoginSpec

namespace DataflowAutomation.CreateVr

/-- The selection strategies of selectDropdownOption in create_vr.spec.ts,
in source order: strategy A (direct text click), strategy B (the seven
CSS option selectors, by position in the optionSelectors array),
strategy C (keyboard navigation) and strategy D (manual pause). -/
inductive Strategy where
  | directText
  | cssSelector (i : Fin 7)
  | keyboard
  | manualPause
deriving DecidableEq

/-- Environment of one call to selectDropdownOption
(create_vr.spec.ts lines 43-180): which steps of the try block succeed.
setupOk covers the waits and the opening input click before the
strategies; tailOk covers the waits after the strategies. -/
structure DropdownEnv where
  setupOk : Bool
  directTextOk : Bool
  cssOk : Fin 7 → Bool
  keyboardOk : Bool
  tailOk : Bool

/-- Observable outcome of one call to selectDropdownOption: the
strategies attempted in order, whether page.pause() was invoked, and the
returned boolean. -/
structure DropdownRun where
  attempts : List Strategy
  paused : Bool
  result : Bool
deriving DecidableEq

/-- The strategy-B for-loop over the optionSelectors array
(create_vr.spec.ts lines 103-116): returns the selectors attempted in
order and whether one of them was clicked (a break). -/
def cssLoop (ok : Fin 7 → Bool) : List (Fin 7) → List (Fin 7) × Bool
  | [] => ([], false)
  | i :: rest =>
      if ok i then ([i], true)
      else
        let r := cssLoop ok rest
        (i :: r.1, r.2)

/-- The indices of the seven entries of the optionSelectors array. -/
def allSelectors : List (Fin 7) := List.finRange 7

/-- The try block of selectDropdownOption (create_vr.spec.ts lines
46-149).  An error value carries the strategies already attempted when
the exception was thrown. -/
def selectDropdownOptionTry (env : DropdownEnv) : Except (List Strategy) DropdownRun :=
  if env.setupOk = false then .error []
  else if env.directTextOk then
    .ok { attempts := [Strategy.directText], paused := false, result := true }
  else
    let r := cssLoop env.cssOk allSelectors
    let cssAttempts := r.1.map Strategy.cssSelector
    if r.2 then
      if env.tailOk then
        .ok { attempts := Strategy.directText :: cssAttempts, paused := false, result := true }
      else .error (Strategy.directText :: cssAttempts)
    else if env.keyboardOk then
      if env.tailOk then
        .ok { attempts := Strategy.directText :: cssAttempts ++ [Strategy.keyboard]
              paused := false, result := true }
      else .error (Strategy.directText :: cssAttempts ++ [Strategy.keyboard])
    else
      if env.tailOk then
        .ok { attempts := Strategy.directText :: cssAttempts ++ [Strategy.keyboard, Strategy.manualPause]
              paused := true, result := true }
      else .error (Strategy.directText :: cssAttempts ++ [Strategy.keyboard, Strategy.manualPause])

/-- selectDropdownOption (create_vr.spec.ts lines 43-180): the try block
wrapped in the catch handler, which logs debug output, invokes
page.pause() and returns true. -/
def selectDropdownOption (env : DropdownEnv) : DropdownRun :=
  match selectDropdownOptionTry env with
  | .ok r => r
  | .error att => { attempts := att ++ [Strategy.manualPause], paused := true, result := true }

/-- Whether a strategy would succeed in the given environment; the manual
pause always succeeds. -/
def strategySucceeds (env : DropdownEnv) : Strategy → Bool
  | .directText => env.directTextOk
  | .cssSelector i => env.cssOk i
  | .keyboard => env.keyboardOk
  | .manualPause => true

/-- The fixed linear order of the selection strategies. -/
def fullOrder : List Strategy :=
  Strategy.directText ::
    allSelectors.map Strategy.cssSelector ++ [Strategy.keyboard, Strategy.manualPause]

/-- The elements of a list up to and including the first one satisfying
p; the whole list if none does. -/
def takeThroughFirstSuccess (p : Strategy → Bool) : List Strategy → List Strategy
  | [] => []
  | s :: rest => if p s then [s] else s :: takeThroughFirstSuccess p rest

/-- The constant maxAttempts of the second-dropdown readiness loop in
fillVerificationForm. -/
def maxAttempts : Nat := 10

/-- The readiness-polling while loop of fillVerificationForm
(create_vr.spec.ts lines 510-529), unrolled on the remaining iteration
budget.  ready a is the outcome of attempt number a (the waitForSelector
succeeded and the dropdown was visible and enabled).  Returns the final
secondDropdownReady flag and attempts counter. -/
def pollAux (ready : Nat → Bool) (attempts : Nat) : Nat → Bool × Nat
  | 0 => (false, attempts)
  | fuel + 1 =>
      let a := attempts + 1
      if ready a then (true, a) else pollAux ready a fuel

/-- The readiness loop started from attempts = 0 with maxAttempts
iterations available. -/
def pollSecondDropdown (ready : Nat → Bool) : Bool × Nat :=
  pollAux ready 0 maxAttempts

/-- Steps 2 and 3 of fillVerificationForm (create_vr.spec.ts lines
502-537): poll for the testSubSpeciality dropdown, then attempt the
second selection whether or not the dropdown became ready. -/
structure SubSpecialityPhase where
  secondDropdownReady : Bool
  attempts : Nat
  secondSelection : DropdownRun
deriving DecidableEq

/-- The poll-then-select fragment of fillVerificationForm: after the
while loop exits, the script logs and calls selectDropdownOption for
testSubSpeciality unconditionally. -/
def subSpecialitySteps (ready : Nat → Bool) (env2 : DropdownEnv) : SubSpecialityPhase :=
  let r := pollSecondDropdown ready
  { secondDropdownReady := r.1
    attempts := r.2
    secondSelection := selectDropdownOption env2 }

/-- Environment of the mandatory-documents checkbox block of
fillVerificationForm (create_vr.spec.ts lines 561-634): selOk i is
whether entry i of the checkboxSelectors array finds and checks the
checkbox, labelOk the label-text click, iconOk the icon/area click. -/
structure DocsCheckboxEnv where
  selOk : Fin 7 → Bool
  labelOk : Bool
  iconOk : Bool

/-- Observable outcome of the mandatory-documents checkbox block. -/
structure DocsCheckboxRun where
  checkboxClicked : Bool
  pauseInvoked : Bool
deriving DecidableEq

/-- The for-loop over the checkboxSelectors array: stops at the first
selector that works. -/
def docsCheckboxLoop (ok : Fin 7 → Bool) : List (Fin 7) → Bool
  | [] => false
  | i :: rest => if ok i then true else docsCheckboxLoop ok rest

/-- The mandatory-documents checkbox block (create_vr.spec.ts lines
561-634): the selector loop, then the label-click fallback, then the
icon-click fallback, and finally page.pause() with checkboxClicked set
to true when everything failed. -/
def mandatoryDocsCheckbox (env : DocsCheckboxEnv) : DocsCheckboxRun :=
  let clicked0 := docsCheckboxLoop env.selOk allSelectors
  let clicked1 := if clicked0 then true else env.labelOk
  let clicked2 := if clicked1 then true else env.iconOk
  if clicked2 then { checkboxClicked := true, pauseInvoked := false }
  else { checkboxClicked := true, pauseInvoked := true }

end DataflowAutomation.CreateVr

namespace DataflowAutomation

/-- Claim C1 — loadCookies loads the saved cookies into the context and
returns the saved email exactly when the snapshot file exists, parses,
its timestamp is within the 24-hour window and adding the cookies
succeeds; in every other case it returns null with no cookies added, and
being a total function it never propagates an exception. -/
theorem C1_loadCookies_fresh_or_null (file : CookieFile) (now : Nat) (addOk : Bool) :
    (∀ d, file = CookieFile.valid d → now - d.timestamp ≤ maxAge → addOk = true →
        loadCookies file now addOk = (some d.email, d.cookies)) ∧
    (file = CookieFile.absent ∨ (∃ s, file = CookieFile.corrupt s) ∨
        (∃ d, file = CookieFile.valid d ∧ (maxAge < now - d.timestamp ∨ addOk = false)) →
        loadCookies file now addOk = (none, [])) := by
  constructor
  · rintro d rfl hfresh hok
    simp [loadCookies, loadCookiesTry, Nat.not_lt.mpr hfresh, hok]
  · rintro (rfl | ⟨s, rfl⟩ | ⟨d, rfl, hcase⟩)
    · rfl
    · rfl
    · rcases hcase with hold | hfail
      · simp [loadCookies, loadCookiesTry, hold]
      · rw [Bool.eq_false_iff] at hfail
        by_cases hage : now - d.timestamp > maxAge <;>
          simp [loadCookies, loadCookiesTry, hage, hfail]

/-- Witness for C1 at a concrete fresh snapshot. -/
theorem C1_witness :
    loadCookies (CookieFile.valid ⟨"a@b.c", [], 0⟩) 5 true = (some "a@b.c", []) :=
  (C1_loadCookies_fresh_or_null (CookieFile.valid ⟨"a@b.c", [], 0⟩) 5 true).1
    ⟨"a@b.c", [], 0⟩ rfl (by decide) rfl

/-- Claim C6 — saveCookies persists exactly the three fields email,
cookies and timestamp, and a loadCookies within the 24-hour window reads
back the same email together with the same cookies. -/
theorem C6_saveCookies_roundTrip (ctx : List Cookie) (email : String) (now later : Nat)
    (h : later - now ≤ maxAge) :
    saveCookies ctx email now = { email := email, cookies := ctx, timestamp := now } ∧
    loadCookies (CookieFile.valid (saveCookies ctx email now)) later true = (some email, ctx) := by
  refine ⟨rfl, ?_⟩
  simp [loadCookies, loadCookiesTry, saveCookies, Nat.not_lt.mpr h]

/-- Witness for C6 at a concrete snapshot saved at time 100 and read at
time 200. -/
theorem C6_witness :
    loadCookies (CookieFile.valid (saveCookies [⟨"sid", "v", "d"⟩] "e@x" 100)) 200 true =
      (some "e@x", [⟨"sid", "v", "d"⟩]) :=
  (C6_saveCookies_roundTrip [⟨"sid", "v", "d"⟩] "e@x" 100 200 (by decide)).2

/-- Claim C9 — the Create Verification Request test takes the
cookie-reuse path exactly when loadCookies returned the hardcoded email
and one of the two logged-in checks passes; any other saved email gives
a fresh login. -/
theorem C9_cookieReuse_iff_specificEmail (savedEmail : Option String)
    (dashboardSelectorOk urlHasDashboard : Bool) :
    createVrDispatch savedEmail dashboardSelectorOk urlHasDashboard = LoginPath.reuseCookies ↔
      savedEmail = some specificEmail ∧
        (dashboardSelectorOk = true ∨ urlHasDashboard = true) := by
  cases savedEmail with
  | none => simp [createVrDispatch]
  | some e =>
      by_cases he : e = specificEmail
      · subst he
        cases dashboardSelectorOk <;> cases urlHasDashboard <;>
          simp [createVrDispatch]
      · simp [createVrDispatch, he]

/-- Witness for C9: with the hardcoded email and a passing dashboard
check the saved session is reused. -/
theorem C9_witness :
    createVrDispatch (some specificEmail) true false = LoginPath.reuseCookies :=
  (C9_cookieReuse_iff_specificEmail (some specificEmail) true false).mpr ⟨rfl, Or.inl rfl⟩

end DataflowAutomation

namespace DataflowAutomation.LoginSpec

/-- Appending nine single-digit strings adds nine to the length. -/
theorem foldl_digits_length (l : List (Fin 10)) (s : String) :
    (l.foldl (fun acc d => acc ++ toString d.val) s).length = s.length + l.length := by
  induction l generalizing s with
  | nil => simp
  | cons d t ih =>
      rw [List.foldl_cons, ih, String.length_append]
      have h : (toString d.val).length = 1 := by fin_cases d <;> rfl
      rw [h, List.length_cons]
      omega

/-- Appending single-digit strings preserves the all-digits property. -/
theorem foldl_digits_all (l : List (Fin 10)) (s : String)
    (hs : s.data.all (fun c => c.isDigit) = true) :
    (l.foldl (fun acc d => acc ++ toString d.val) s).data.all (fun c => c.isDigit) = true := by
  induction l generalizing s with
  | nil => simpa using hs
  | cons d t ih =>
      rw [List.foldl_cons]
      apply ih
      have hd : (toString d.val).data.all (fun c => c.isDigit) = true := by fin_cases d <;> rfl
      rw [String.data_append, List.all_append, hs, hd]
      rfl

/-- Claim C7 — generateRandomPhoneNumber always returns a string of
exactly ten decimal digits whose first character is one of 6, 7, 8, 9:
the number-plus-string coercion concatenates, it never adds. -/
theorem C7_generateRandomPhoneNumber_shape (r0 : Fin 4) (rs : Fin 9 → Fin 10) :
    (generateRandomPhoneNumber r0 rs).length = 10 ∧
    (generateRandomPhoneNumber r0 rs).data.all (fun c => c.isDigit) = true ∧
    (generateRandomPhoneNumber r0 rs).data.head? ∈
      [some '6', some '7', some '8', some '9'] := by
  refine ⟨?_, ?_, ?_⟩
  · rw [generateRandomPhoneNumber, String.length_append, foldl_digits_length]
    have h9 : (List.ofFn rs).length = 9 := List.length_ofFn rs
    rw [h9]
    fin_cases r0 <;> rfl
  · rw [generateRandomPhoneNumber, String.data_append, List.all_append]
    have h1 : (toString ([6, 7, 8, 9].get r0)).data.all (fun c => c.isDigit) = true := by
      fin_cases r0 <;> rfl
    have h2 := foldl_digits_all (List.ofFn rs) "" rfl
    rw [h1, h2]
    rfl
  · rw [generateRandomPhoneNumber, String.data_append]
    fin_cases r0
    · exact List.Mem.head _
    · exact List.Mem.tail _ (List.Mem.head _)
    · exact List.Mem.tail _ (List.Mem.tail _ (List.Mem.head _))
    · exact List.Mem.tail _ (List.Mem.tail _ (List.Mem.tail _ (List.Mem.head _)))

/-- Claim C8 — the login.spec.ts dropdown helper, once the click sequence
has run, throws the failure message exactly when the observed input
value is empty or the placeholder, and returns the input value in every
other case. -/
theorem C8_selectDropdownOption_check (testId inputValue : String) :
    (selectDropdownOption testId (Except.ok ()) inputValue =
        Except.error (dropdownErrorMessage testId) ↔
      inputValue = "" ∨ inputValue = "Select " ++ testId) ∧
    (inputValue ≠ "" → inputValue ≠ "Select " ++ testId →
      selectDropdownOption testId (Except.ok ()) inputValue = Except.ok inputValue) := by
  constructor
  · by_cases h : inputValue = "" ∨ inputValue = "Select " ++ testId <;>
      simp [selectDropdownOption, h]
  · intro h1 h2
    have h : ¬(inputValue = "" ∨ inputValue = "Select " ++ testId) := by
      rintro (rfl | rfl) <;> simp_all
    simp [selectDropdownOption, h]

/-- Witness for C8 at a concrete successful selection. -/
theorem C8_witness :
    selectDropdownOption "gender" (Except.ok ()) "Male" = Except.ok "Male" :=
  (C8_selectDropdownOption_check "gender" "Male").2 (by decide) (by decide)

/-- The terms checkbox block takes its screenshot exactly when the
checkbox was not selected. -/
theorem termsCheckboxBlock_screenshot (env : CheckboxEnv) :
    (termsCheckboxBlock env).screenshotTaken =
      !(termsCheckboxBlock env).checkboxSelected := rfl

end DataflowAutomation.LoginSpec

namespace DataflowAutomation.CreateVr

/-- When every CSS selector fails, the strategy-B loop visits the whole
list and reports no click. -/
theorem cssLoop_all_false (ok : Fin 7 → Bool) (l : List (Fin 7)) (h : ∀ i, ok i = false) :
    cssLoop ok l = (l, false) := by
  induction l with
  | nil => rfl
  | cons i t ih => simp [cssLoop, h i, ih]

/-- selectDropdownOption returns true on every execution path. -/
theorem selOpt_result_true (env : DropdownEnv) : (selectDropdownOption env).result = true := by
  obtain ⟨su, dt, css, kb, tl⟩ := env
  cases su <;> cases dt <;> cases kb <;> cases tl <;>
    cases hc : (cssLoop css allSelectors).2 <;>
      simp [selectDropdownOption, selectDropdownOptionTry, hc]

/-- When the setup steps throw, the catch handler pauses. -/
theorem selOpt_paused_catch (env : DropdownEnv) (h : env.setupOk = false) :
    (selectDropdownOption env).paused = true := by
  simp [selectDropdownOption, selectDropdownOptionTry, h]

/-- When every automated strategy fails, the call ends in a pause. -/
theorem selOpt_paused_exhausted (env : DropdownEnv) (hdt : env.directTextOk = false)
    (hcss : ∀ i, env.cssOk i = false) (hkb : env.keyboardOk = false) :
    (selectDropdownOption env).paused = true := by
  have hc : cssLoop env.cssOk allSelectors = (allSelectors, false) :=
    cssLoop_all_false env.cssOk allSelectors hcss
  cases hsu : env.setupOk <;> cases htl : env.tailOk <;>
    simp [selectDropdownOption, selectDropdownOptionTry, hc, hdt, hkb, hsu, htl]

/-- Claim C3 — selectDropdownOption of create_vr.spec.ts is total with
respect to errors: it returns true on every path (the catch handler
absorbs every exception), the caught-exception path pauses, and the path
on which every automated strategy fails pauses. -/
theorem C3_selectDropdownOption_total (env : DropdownEnv) :
    (selectDropdownOption env).result = true ∧
    (env.setupOk = false → (selectDropdownOption env).paused = true) ∧
    (env.directTextOk = false → (∀ i, env.cssOk i = false) → env.keyboardOk = false →
        (selectDropdownOption env).paused = true) :=
  ⟨selOpt_result_true env, selOpt_paused_catch env, selOpt_paused_exhausted env⟩

/-- Witness for C3 at an environment where everything fails. -/
theorem C3_witness :
    (selectDropdownOption ⟨false, false, fun _ => false, false, false⟩).result = true ∧
    (selectDropdownOption ⟨false, false, fun _ => false, false, false⟩).paused = true :=
  ⟨(C3_selectDropdownOption_total ⟨false, false, fun _ => false, false, false⟩).1,
   (C3_selectDropdownOption_total ⟨false, false, fun _ => false, false, false⟩).2.1 rfl⟩

/-- takeThroughFirstSuccess over the mapped CSS selector list agrees
with the strategy-B loop. -/
theorem takeThrough_cssList (env : DropdownEnv) (l : List (Fin 7)) (rest : List Strategy) :
    takeThroughFirstSuccess (strategySucceeds env) (l.map Strategy.cssSelector ++ rest) =
      (if (cssLoop env.cssOk l).2 = true
       then (cssLoop env.cssOk l).1.map Strategy.cssSelector
       else (cssLoop env.cssOk l).1.map Strategy.cssSelector ++
            takeThroughFirstSuccess (strategySucceeds env) rest) := by
  induction l with
  | nil => simp [cssLoop]
  | cons i t ih =>
      cases h : env.cssOk i
      · cases h2 : (cssLoop env.cssOk t).2 <;>
          simp [cssLoop, takeThroughFirstSuccess, strategySucceeds, h, h2, ih]
      · simp [cssLoop, takeThroughFirstSuccess, strategySucceeds, h]

/-- takeThroughFirstSuccess on the keyboard-and-pause tail. -/
theorem takeThrough_tail (env : DropdownEnv) :
    takeThroughFirstSuccess (strategySucceeds env) [Strategy.keyboard, Strategy.manualPause] =
      if env.keyboardOk = true then [Strategy.keyboard]
      else [Strategy.keyboard, Strategy.manualPause] := by
  cases hkb : env.keyboardOk <;>
    simp [takeThroughFirstSuccess, strategySucceeds, hkb]

/-- Claim C4 — when the surrounding steps of the try block succeed, the
strategies attempted by selectDropdownOption are exactly the fixed
linear order (direct text, the seven CSS selectors in list order,
keyboard, manual pause) cut off right after the first success: a later
strategy runs only if every earlier one failed. -/
theorem C4_strategy_order (env : DropdownEnv) (hsu : env.setupOk = true)
    (htl : env.tailOk = true) :
    (selectDropdownOption env).attempts =
      takeThroughFirstSuccess (strategySucceeds env) fullOrder := by
  have hcss := takeThrough_cssList env allSelectors [Strategy.keyboard, Strategy.manualPause]
  have hhead : takeThroughFirstSuccess (strategySucceeds env) fullOrder =
      if env.directTextOk = true then [Strategy.directText]
      else Strategy.directText ::
        takeThroughFirstSuccess (strategySucceeds env)
          (allSelectors.map Strategy.cssSelector ++ [Strategy.keyboard, Strategy.manualPause]) :=
    rfl
  rw [hhead, hcss, takeThrough_tail env]
  cases hdt : env.directTextOk <;>
    cases hc : (cssLoop env.cssOk allSelectors).2 <;>
      cases hkb : env.keyboardOk <;>
        simp [selectDropdownOption, selectDropdownOptionTry, hsu, htl, hdt, hc, hkb]

/-- Witness for C4: with every CSS selector and the keyboard failing but
the direct text click succeeding, only the first strategy runs. -/
theorem C4_witness :
    (selectDropdownOption ⟨true, true, fun _ => false, false, true⟩).attempts =
      takeThroughFirstSuccess (strategySucceeds ⟨true, true, fun _ => false, false, true⟩)
        fullOrder :=
  C4_strategy_order ⟨true, true, fun _ => false, false, true⟩ rfl rfl

/-- The polling loop counter never exceeds its starting value plus the
available fuel. -/
theorem pollAux_le (ready : Nat → Bool) (attempts fuel : Nat) :
    (pollAux ready attempts fuel).2 ≤ attempts + fuel := by
  induction fuel generalizing attempts with
  | zero => simp [pollAux]
  | succ f ih =>
      show (if ready (attempts + 1) = true then (true, attempts + 1)
            else pollAux ready (attempts + 1) f).2 ≤ attempts + (f + 1)
      cases h : ready (attempts + 1)
      · rw [if_neg (by simp)]
        exact le_trans (ih (attempts + 1)) (by omega)
      · rw [if_pos rfl]
        show attempts + 1 ≤ attempts + (f + 1)
        omega

/-- When the dropdown never becomes ready, the loop runs through all of
its fuel and reports not ready. -/
theorem pollAux_never (ready : Nat → Bool) (h : ∀ i, ready i = false)
    (attempts fuel : Nat) :
    pollAux ready attempts fuel = (false, attempts + fuel) := by
  induction fuel generalizing attempts with
  | zero => simp [pollAux]
  | succ f ih =>
      show (if ready (attempts + 1) = true then (true, attempts + 1)
            else pollAux ready (attempts + 1) f) = (false, attempts + (f + 1))
      rw [h (attempts + 1), if_neg (by simp), ih (attempts + 1)]
      have harith : attempts + 1 + f = attempts + (f + 1) := by omega
      rw [harith]

/-- Claim C5 — the readiness loop for the testSubSpeciality dropdown
terminates after at most maxAttempts = 10 iterations, the second
selection is attempted regardless of readiness, and when the dropdown
never becomes ready the loop exits after exactly 10 attempts and the
function still proceeds. -/
theorem C5_secondDropdown_poll_bounded (ready : Nat → Bool) (env2 : DropdownEnv) :
    (subSpecialitySteps ready env2).attempts ≤ maxAttempts ∧
    (subSpecialitySteps ready env2).secondSelection = selectDropdownOption env2 ∧
    ((∀ i, ready i = false) →
        (subSpecialitySteps ready env2).secondDropdownReady = false ∧
        (subSpecialitySteps ready env2).attempts = maxAttempts) := by
  refine ⟨?_, rfl, ?_⟩
  · have h := pollAux_le ready 0 maxAttempts
    simpa [subSpecialitySteps, pollSecondDropdown] using h
  · intro h
    have hn := pollAux_never ready h 0 maxAttempts
    simp [subSpecialitySteps, pollSecondDropdown, hn]

/-- Witness for C5 with a dropdown that never becomes ready. -/
theorem C5_witness :
    (subSpecialitySteps (fun _ => false) ⟨true, true, fun _ => false, false, true⟩).attempts =
      maxAttempts :=
  ((C5_secondDropdown_poll_bounded (fun _ => false)
      ⟨true, true, fun _ => false, false, true⟩).2.2 (fun _ => rfl)).2

/-- When every checkbox selector fails, the docs checkbox loop reports
no click. -/
theorem docsLoop_all_false (ok : Fin 7 → Bool) (l : List (Fin 7)) (h : ∀ i, ok i = false) :
    docsCheckboxLoop ok l = false := by
  induction l with
  | nil => rfl
  | cons i t ih => simp [docsCheckboxLoop, h i, ih]

end DataflowAutomation.CreateVr

namespace DataflowAutomation

/-- Claim C2 counterexample — the terms-and-conditions checkbox block of
login.spec.ts, on the execution where all six methods fail, takes the
failure screenshot and continues with no page.pause(): an
all-fallbacks-exhausted path without a manual pause, contradicting the
claim that every such path pauses. -/
theorem C2_counterexample :
    (LoginSpec.termsCheckboxBlock ⟨false, false, false, false, false, false⟩).checkboxSelected
        = false ∧
    (LoginSpec.termsCheckboxBlock ⟨false, false, false, false, false, false⟩).screenshotTaken
        = true ∧
    (LoginSpec.termsCheckboxBlock ⟨false, false, false, false, false, false⟩).pauseInvoked
        = false :=
  ⟨rfl, rfl, rfl⟩

/-- Claim C2 (amended) — in create_vr.spec.ts the all-fallbacks-exhausted
paths of selectDropdownOption and of the mandatory-documents checkbox
block end in page.pause(), but the terms-and-conditions checkbox block
of login.spec.ts never pauses: when all six of its methods fail it takes
a screenshot and continues. -/
theorem C2_amended_pause_paths :
    (∀ env : CreateVr.DropdownEnv, env.directTextOk = false →
        (∀ i, env.cssOk i = false) → env.keyboardOk = false →
        (CreateVr.selectDropdownOption env).paused = true) ∧
    (∀ env : CreateVr.DocsCheckboxEnv, (∀ i, env.selOk i = false) →
        env.labelOk = false → env.iconOk = false →
        (CreateVr.mandatoryDocsCheckbox env).pauseInvoked = true) ∧
    (∀ env : LoginSpec.CheckboxEnv,
        (LoginSpec.termsCheckboxBlock env).pauseInvoked = false ∧
        ((LoginSpec.termsCheckboxBlock env).checkboxSelected = false →
            (LoginSpec.termsCheckboxBlock env).screenshotTaken = true)) := by
  refine ⟨fun env hdt hcss hkb => CreateVr.selOpt_paused_exhausted env hdt hcss hkb,
          fun env hsel hlab hico => ?_,
          fun env => ⟨rfl, fun h => ?_⟩⟩
  · have hl : CreateVr.docsCheckboxLoop env.selOk CreateVr.allSelectors = false :=
      CreateVr.docsLoop_all_false env.selOk CreateVr.allSelectors hsel
    simp [CreateVr.mandatoryDocsCheckbox, hl, hlab, hico]
  · rw [LoginSpec.termsCheckboxBlock_screenshot, h]
    rfl

/-- Witness for the amended C2 at concrete all-failing environments. -/
theorem C2_amended_witness :
    (CreateVr.selectDropdownOption ⟨true, false, fun _ => false, false, true⟩).paused = true ∧
    (CreateVr.mandatoryDocsCheckbox ⟨fun _ => false, false, false⟩).pauseInvoked = true :=
  ⟨C2_amended_pause_paths.1 ⟨true, false, fun _ => false, false, true⟩ rfl (fun _ => rfl) rfl,
   C2_amended_pause_paths.2.1 ⟨fun _ => false, false, false⟩ (fun _ => rfl) rfl rfl⟩

end DataflowAutomation
